import Mathlib

/-!
Shallow embedding of the `building-3d-memory` frontend
(`src/frontend/src/App.tsx` and `src/frontend/src/components/ThreeScene.tsx`).

The app renders a Three.js scene hosted in a React component.  We model:

* exact 3-vectors over `ℚ` (Three.js `Vector3`, with the concrete constants
  `0.001`, `0.1`, `0.05` representable exactly);
* the loaded OBJ object (`Object3D`): a position, a scale and a flat list of
  meshes, each mesh carrying its geometry vertices and its shadow flags —
  this is the shape of the group returned by `OBJLoader`;
* `Box3().setFromObject` / `Box3.getCenter` as used by the success callback;
* the `ThreeScene` session as a state machine: mount builds the initial
  state (`initState`), and the asynchronous callbacks plus the resize
  handler are events (`Ev`) consumed by `step`.  `evAllowed`/`validFrom`
  encode the loader runtime contract: a load reports success or error at
  most once, and an OBJ callback can only fire for an OBJ load that was
  actually started (the code starts it only inside the MTL success
  callback, which is what `step` records in `objLoadStarted`);
* the `App` root component as a boolean toggle over an optional mounted
  session (`AppState`), where unmounting discards the session state and
  remounting rebuilds it from scratch (React `useState`/`useEffect`
  semantics for a component keyed by the conditional render).
-/

namespace Building3D

/-- Exact 3-component vector standing in for `THREE.Vector3`. -/
structure Vec3 where
  x : ℚ
  y : ℚ
  z : ℚ
deriving DecidableEq, Repr

def Vec3.add (a b : Vec3) : Vec3 := ⟨a.x + b.x, a.y + b.y, a.z + b.z⟩

def Vec3.sub (a b : Vec3) : Vec3 := ⟨a.x - b.x, a.y - b.y, a.z - b.z⟩

/-- Componentwise product, as in `Vector3.multiply` (used for non-uniform scaling). -/
def Vec3.hMul (a b : Vec3) : Vec3 := ⟨a.x * b.x, a.y * b.y, a.z * b.z⟩

def Vec3.smul (k : ℚ) (a : Vec3) : Vec3 := ⟨k * a.x, k * a.y, k * a.z⟩

def Vec3.inf (a b : Vec3) : Vec3 := ⟨min a.x b.x, min a.y b.y, min a.z b.z⟩

def Vec3.sup (a b : Vec3) : Vec3 := ⟨max a.x b.x, max a.y b.y, max a.z b.z⟩

def Vec3.zero : Vec3 := ⟨0, 0, 0⟩

/-- A `THREE.Mesh` child of the loaded group: geometry vertices (in local
space) and the two shadow flags toggled by the success callback's
`traverse`. -/
structure Mesh where
  vertices : List Vec3
  castShadow : Bool
  receiveShadow : Bool
deriving DecidableEq, Repr

/-- The object handed to the `objLoader.load` success callback: a group with
a position, a scale, and mesh children. -/
structure Object3D where
  position : Vec3
  scale : Vec3
  meshes : List Mesh
deriving DecidableEq, Repr

/-- World-space points of the object: every mesh vertex transformed by the
group's scale and translation (mesh children of an `OBJLoader` group carry
identity local transforms). -/
def Object3D.worldPoints (o : Object3D) : List Vec3 :=
  (o.meshes.flatMap Mesh.vertices).map (fun v => Vec3.add o.position (Vec3.hMul o.scale v))

/-- Axis-aligned bounding box (`THREE.Box3`), non-empty representation. -/
structure Box3 where
  lo : Vec3
  hi : Vec3
deriving DecidableEq, Repr

/-- Expand a box so that it also contains the point `w` (`Box3.expandByPoint`). -/
def boxExpand (b : Box3) (w : Vec3) : Box3 := ⟨Vec3.inf b.lo w, Vec3.sup b.hi w⟩

/-- Expand-by-point fold used by `Box3`: `none` models the empty box. -/
def box3OfPoints : List Vec3 → Option Box3
  | [] => none
  | v :: vs => some (vs.foldl boxExpand ⟨v, v⟩)

/-- Model of `new THREE.Box3().setFromObject(object)`. -/
def setFromObject (o : Object3D) : Option Box3 :=
  box3OfPoints o.worldPoints

/-- Model of `Box3.getCenter`: the zero vector for an empty box, otherwise
the midpoint of the extremes. -/
def getCenter : Option Box3 → Vec3
  | none => Vec3.zero
  | some b => Vec3.smul (1 / 2) (Vec3.add b.lo b.hi)

/-- Line `object.scale.set(0.001, 0.001, 0.001)` of the success callback. -/
def applyScale (o : Object3D) : Object3D :=
  { o with scale := ⟨1 / 1000, 1 / 1000, 1 / 1000⟩ }

/-- Lines `const box = ...; const center = ...; object.position.sub(center)`
of the success callback. -/
def centerObject (o : Object3D) : Object3D :=
  { o with position := Vec3.sub o.position (getCenter (setFromObject o)) }

/-- The `object.traverse` loop of the success callback: every mesh child
gets `castShadow = true` and `receiveShadow = true`. -/
def setShadows (o : Object3D) : Object3D :=
  { o with meshes := o.meshes.map (fun m => { m with castShadow := true, receiveShadow := true }) }

/-- The whole transformation the OBJ success callback applies to the loaded
object before `scene.add(object)`. -/
def objSuccessObject (o : Object3D) : Object3D :=
  setShadows (centerObject (applyScale o))

/-- Model of `THREE.AmbientLight(color, intensity)`. -/
structure AmbientLight where
  color : ℕ
  intensity : ℚ
deriving DecidableEq, Repr

/-- Model of `THREE.DirectionalLight` with its shadow-camera frustum. -/
structure DirectionalLight where
  color : ℕ
  intensity : ℚ
  position : Vec3
  castShadow : Bool
  shadowLeft : ℚ
  shadowRight : ℚ
  shadowTop : ℚ
  shadowBottom : ℚ
deriving DecidableEq, Repr

/-- Model of the `THREE.Scene`: the background color plus the three objects
the component adds (two lights at mount, the loaded model later). -/
structure Scene where
  background : ℕ
  ambient : Option AmbientLight
  directional : Option DirectionalLight
  model : Option Object3D
deriving DecidableEq, Repr

/-- Model of `THREE.PerspectiveCamera`.  `projectionAspect` is the aspect
baked into the projection matrix; the constructor computes it, and
`updateProjectionMatrix` refreshes it from `aspect`. -/
structure Camera where
  fov : ℚ
  aspect : ℚ
  near : ℚ
  far : ℚ
  position : Vec3
  lookTarget : Vec3
  projectionAspect : ℚ
deriving DecidableEq, Repr

/-- Shadow-map algorithm selector (`renderer.shadowMap.type`). -/
inductive ShadowMapType where
  | basicShadowMap
  | pcfShadowMap
  | pcfSoftShadowMap
  | vsmShadowMap
deriving DecidableEq, Repr

/-- Model of the `THREE.WebGLRenderer`: drawing-surface size, shadow
configuration, whether its canvas is attached to the container, and whether
`dispose()` has been called. -/
structure Renderer where
  width : ℚ
  height : ℚ
  antialias : Bool
  shadowMapEnabled : Bool
  shadowMapType : ShadowMapType
  domAttached : Bool
  disposed : Bool
deriving DecidableEq, Repr

/-- Model of the `OrbitControls` navigation controller. -/
structure OrbitControlsState where
  enableDamping : Bool
  dampingFactor : ℚ
  disposed : Bool
deriving DecidableEq, Repr

/-- Full state of one mounted `ThreeScene` session: the two React state
flags, the Three.js objects, and bookkeeping for the two-stage load
(`mtlDone`: the MTL load has reported success or error; `objLoadStarted`:
`objLoader.load` has been called; `objDone`: the OBJ load has reported
success or error; `objMaterialsSet`: `objLoader.setMaterials` has run). -/
structure SessionState where
  loading : Bool
  error : Option String
  scene : Scene
  camera : Camera
  renderer : Renderer
  controls : OrbitControlsState
  resizeHandlerRegistered : Bool
  mtlDone : Bool
  objLoadStarted : Bool
  objDone : Bool
  objMaterialsSet : Bool
deriving DecidableEq, Repr

/-- State of one mount of `ThreeScene`, given viewport dimensions `w × h`:
`useState(true)` / `useState<string | null>(null)` plus the synchronous part
of the `useEffect` body (scene, camera, renderer, controls, lights, resize
listener registration; `mtlLoader.load` is called but no callback has run
yet). -/
def initState (w h : ℚ) : SessionState where
  loading := true
  error := none
  scene :=
    { background := 0xf0f0f0
      ambient := some { color := 0xffffff, intensity := 6 / 10 }
      directional := some
        { color := 0xffffff
          intensity := 8 / 10
          position := ⟨10, 10, 5⟩
          castShadow := true
          shadowLeft := -10
          shadowRight := 10
          shadowTop := 10
          shadowBottom := -10 }
      model := none }
  camera :=
    { fov := 45
      aspect := w / h
      near := 1 / 10
      far := 1000
      position := ⟨10, 10, 10⟩
      lookTarget := ⟨0, 0, 0⟩
      projectionAspect := w / h }
  renderer :=
    { width := w
      height := h
      antialias := true
      shadowMapEnabled := true
      shadowMapType := ShadowMapType.pcfSoftShadowMap
      domAttached := true
      disposed := false }
  controls := { enableDamping := true, dampingFactor := 5 / 100, disposed := false }
  resizeHandlerRegistered := true
  mtlDone := false
  objLoadStarted := false
  objDone := false
  objMaterialsSet := false

/-- Events a mounted session can observe: the four loader callbacks and a
viewport resize. -/
inductive Ev where
  | mtlSuccess
  | mtlError
  | objSuccess (o : Object3D)
  | objError
  | resize (w h : ℚ)
deriving DecidableEq, Repr

/-- Effect of each event on the session state, read off the callbacks in
`ThreeScene.tsx`:

* MTL success: `materials.preload(); objLoader.setMaterials(materials);
  objLoader.load(...)` — records that the OBJ load is now in flight;
* MTL error: `setError('Failed to load MTL file'); setLoading(false)`;
* OBJ success: scale, recenter, shadow flags, `scene.add(object)`,
  `setLoading(false)`;
* OBJ error: `setError('Failed to load OBJ file'); setLoading(false)`;
* resize: `camera.aspect = w/h; camera.updateProjectionMatrix();
  renderer.setSize(w, h)`. -/
def step (s : SessionState) : Ev → SessionState
  | Ev.mtlSuccess =>
      { s with mtlDone := true, objMaterialsSet := true, objLoadStarted := true }
  | Ev.mtlError =>
      { s with mtlDone := true, error := some "Failed to load MTL file", loading := false }
  | Ev.objSuccess o =>
      { s with objDone := true
               scene := { s.scene with model := some (objSuccessObject o) }
               loading := false }
  | Ev.objError =>
      { s with objDone := true, error := some "Failed to load OBJ file", loading := false }
  | Ev.resize w h =>
      { s with camera := { s.camera with aspect := w / h, projectionAspect := w / h }
               renderer := { s.renderer with width := w, height := h } }

/-- Loader runtime contract: each load reports success or error at most
once, and an OBJ callback can fire only for an OBJ load that was started.
Resizes can happen at any time. -/
def evAllowed (s : SessionState) : Ev → Bool
  | Ev.mtlSuccess => !s.mtlDone
  | Ev.mtlError => !s.mtlDone
  | Ev.objSuccess _ => s.objLoadStarted && !s.objDone
  | Ev.objError => s.objLoadStarted && !s.objDone
  | Ev.resize _ _ => true

/-- Run a list of events through `step`. -/
def run (s : SessionState) : List Ev → SessionState
  | [] => s
  | e :: tr => run (step s e) tr

/-- The trace is possible under the loader runtime contract when started
from state `s`. -/
def validFrom (s : SessionState) : List Ev → Bool
  | [] => true
  | e :: tr => evAllowed s e && validFrom (step s e) tr

/-- Teardown returned by the `useEffect`: remove the resize listener,
`controls.dispose()`, detach the renderer canvas if still attached, and
`renderer.dispose()`. -/
def cleanup (s : SessionState) : SessionState :=
  { s with resizeHandlerRegistered := false
           controls := { s.controls with disposed := true }
           renderer := { s.renderer with domAttached := false, disposed := true } }

/-- Which of the two mutually exclusive subtrees of `App` is rendered. -/
inductive Subtree where
  | sceneTree
  | panelTree
deriving DecidableEq, Repr

/-- State of the root `App` component: the `showThree` boolean from
`useState(true)` and, when the scene subtree is mounted, the state of the
hosted `ThreeScene` session. -/
structure AppState where
  showThree : Bool
  host : Option SessionState
deriving DecidableEq, Repr

/-- First render of `App`: `useState(true)`, so the scene subtree mounts a
fresh `ThreeScene` session for viewport `w × h`. -/
def appInit (w h : ℚ) : AppState where
  showThree := true
  host := some (initState w h)

/-- The subtree the ternary in `App` renders. -/
def renderedSubtree (a : AppState) : Subtree :=
  if a.showThree then Subtree.sceneTree else Subtree.panelTree

/-- Clicking the visible switch button: `setShowThree(false)` from the scene
subtree (unmounting `ThreeScene` and discarding its state), or
`setShowThree(true)` from the panel (mounting a fresh session for the
current viewport `w × h`). -/
def appToggle (a : AppState) (w h : ℚ) : AppState :=
  if a.showThree then { showThree := false, host := none }
  else { showThree := true, host := some (initState w h) }

/-- Loader events reaching the root only affect the mounted session. -/
def appStep (a : AppState) (e : Ev) : AppState :=
  { a with host := a.host.map (fun s => step s e) }

/-! ### Trace algebra -/

theorem run_append (s : SessionState) (t₁ t₂ : List Ev) :
    run s (t₁ ++ t₂) = run (run s t₁) t₂ := by
  induction t₁ generalizing s with
  | nil => rfl
  | cons e tr ih => simp [run, ih]

theorem validFrom_append (s : SessionState) (t₁ t₂ : List Ev) :
    validFrom s (t₁ ++ t₂) = (validFrom s t₁ && validFrom (run s t₁) t₂) := by
  induction t₁ generalizing s with
  | nil => simp [validFrom, run]
  | cons e tr ih => simp [validFrom, run, ih, Bool.and_assoc]

/-! ### Monotone facts about `step`/`run` that need no validity assumption -/

theorem step_loading_mono (s : SessionState) (e : Ev) (h : s.loading = false) :
    (step s e).loading = false := by
  cases e <;> simp [step, h]

theorem run_loading_mono (s : SessionState) (tr : List Ev) (h : s.loading = false) :
    (run s tr).loading = false := by
  induction tr generalizing s with
  | nil => exact h
  | cons e tr ih => exact ih _ (step_loading_mono s e h)

theorem objLoadStarted_requires_mtlSuccess (s : SessionState) (tr : List Ev)
    (h0 : s.objLoadStarted = false) (h1 : (run s tr).objLoadStarted = true) :
    Ev.mtlSuccess ∈ tr := by
  induction tr generalizing s with
  | nil => rw [run, h0] at h1; exact absurd h1 (by simp)
  | cons e tr ih =>
    cases e with
    | mtlSuccess => exact List.mem_cons_self _ _
    | mtlError => exact List.mem_cons_of_mem _ (ih (step s Ev.mtlError) h0 h1)
    | objSuccess o => exact List.mem_cons_of_mem _ (ih (step s (Ev.objSuccess o)) h0 h1)
    | objError => exact List.mem_cons_of_mem _ (ih (step s Ev.objError) h0 h1)
    | resize w h => exact List.mem_cons_of_mem _ (ih (step s (Ev.resize w h)) h0 h1)

/-! ### The reachable-state invariant under the loader contract -/

/-- Invariant of every state reachable from mount under the loader
contract: the OBJ load only starts after the MTL stage completed, a model
is in the scene only once the OBJ load reported, and an error implies the
MTL stage completed and any started OBJ load reported. -/
def SInv (s : SessionState) : Prop :=
  (s.objLoadStarted = true → s.mtlDone = true) ∧
  (s.objDone = false → s.scene.model = none) ∧
  (∀ m, s.error = some m → s.mtlDone = true ∧ (s.objLoadStarted = true → s.objDone = true))

theorem SInv_initState (w h : ℚ) : SInv (initState w h) := by
  refine ⟨?_, ?_, ?_⟩ <;> simp [initState]

theorem SInv_step (s : SessionState) (e : Ev) (hv : evAllowed s e = true) (h : SInv s) :
    SInv (step s e) := by
  obtain ⟨hA, hB, hC⟩ := h
  cases e with
  | mtlSuccess =>
    simp only [evAllowed, Bool.not_eq_true'] at hv
    refine ⟨fun _ => rfl, fun hd => hB (by simpa [step] using hd), fun m hm => ?_⟩
    exact absurd ((hC m (by simpa [step] using hm)).1) (by simp [hv])
  | mtlError =>
    simp only [evAllowed, Bool.not_eq_true'] at hv
    have hS : s.objLoadStarted = false := by
      cases hS : s.objLoadStarted with
      | false => rfl
      | true => exact absurd (hA hS) (by simp [hv])
    refine ⟨fun _ => rfl, fun hd => hB (by simpa [step] using hd), fun m _ => ?_⟩
    exact ⟨rfl, fun hst => absurd (by simpa [step] using hst) (by simp [hS])⟩
  | objSuccess o =>
    simp only [evAllowed, Bool.and_eq_true, Bool.not_eq_true'] at hv
    refine ⟨fun _ => hA hv.1, fun hd => by simp [step] at hd, ?_⟩
    exact fun m hm => ⟨hA hv.1, fun _ => rfl⟩
  | objError =>
    simp only [evAllowed, Bool.and_eq_true, Bool.not_eq_true'] at hv
    refine ⟨fun _ => hA hv.1, fun hd => by simp [step] at hd, ?_⟩
    exact fun m hm => ⟨hA hv.1, fun _ => rfl⟩
  | resize w h =>
    exact ⟨hA, hB, hC⟩

theorem SInv_run (s : SessionState) (tr : List Ev) (hv : validFrom s tr = true)
    (h : SInv s) : SInv (run s tr) := by
  induction tr generalizing s with
  | nil => exact h
  | cons e tr ih =>
    rw [validFrom, Bool.and_eq_true] at hv
    exact ih _ hv.2 (SInv_step s e hv.1 h)

/-! ### Stability of settled flags along valid continuations -/

theorem run_objLoadStarted_false (s : SessionState) (tr : List Ev)
    (hv : validFrom s tr = true) (hm : s.mtlDone = true) (h : s.objLoadStarted = false) :
    (run s tr).objLoadStarted = false := by
  induction tr generalizing s with
  | nil => exact h
  | cons e tr ih =>
    rw [validFrom, Bool.and_eq_true] at hv
    cases e with
    | mtlSuccess => simp [evAllowed, hm] at hv
    | mtlError => simp [evAllowed, hm] at hv
    | objSuccess o => simp [evAllowed, h] at hv
    | objError => simp [evAllowed, h] at hv
    | resize w' h' => exact ih _ hv.2 (by simpa [step] using hm) (by simpa [step] using h)

theorem run_error_stable (s : SessionState) (tr : List Ev) (m : String)
    (hv : validFrom s tr = true) (hinv : SInv s) (he : s.error = some m) :
    (run s tr).error = some m := by
  induction tr generalizing s with
  | nil => exact he
  | cons e tr ih =>
    rw [validFrom, Bool.and_eq_true] at hv
    obtain ⟨hmd, hset⟩ := hinv.2.2 m he
    cases e with
    | mtlSuccess => simp [evAllowed, hmd] at hv
    | mtlError => simp [evAllowed, hmd] at hv
    | objSuccess o =>
      have := hv.1
      simp only [evAllowed, Bool.and_eq_true, Bool.not_eq_true'] at this
      exact absurd (hset this.1) (by simp [this.2])
    | objError =>
      have := hv.1
      simp only [evAllowed, Bool.and_eq_true, Bool.not_eq_true'] at this
      exact absurd (hset this.1) (by simp [this.2])
    | resize w' h' =>
      exact ih _ hv.2 (SInv_step s _ hv.1 hinv) (by simpa [step] using he)

theorem run_model_none_stable (s : SessionState) (tr : List Ev)
    (hv : validFrom s tr = true) (hm : s.mtlDone = true) (hd : s.objDone = true)
    (h : s.scene.model = none) : (run s tr).scene.model = none := by
  induction tr generalizing s with
  | nil => exact h
  | cons e tr ih =>
    rw [validFrom, Bool.and_eq_true] at hv
    cases e with
    | mtlSuccess => simp [evAllowed, hm] at hv
    | mtlError => simp [evAllowed, hm] at hv
    | objSuccess o => simp [evAllowed, hd] at hv
    | objError => simp [evAllowed, hd] at hv
    | resize w' h' => exact ih _ hv.2 hm hd h

theorem run_error_cases (s : SessionState) (tr : List Ev)
    (h : s.error = none ∨ s.error = some "Failed to load MTL file" ∨
      s.error = some "Failed to load OBJ file") :
    (run s tr).error = none ∨ (run s tr).error = some "Failed to load MTL file" ∨
      (run s tr).error = some "Failed to load OBJ file" := by
  induction tr generalizing s with
  | nil => exact h
  | cons e tr ih =>
    refine ih (step s e) ?_
    cases e with
    | mtlSuccess => simpa [step] using h
    | mtlError => simp [step]
    | objSuccess o => simpa [step] using h
    | objError => simp [step]
    | resize w' h' => simpa [step] using h

/-! ### Bounding-box geometry of the OBJ success callback -/

theorem Vec3.inf_sub (a b c : Vec3) :
    Vec3.inf (Vec3.sub a c) (Vec3.sub b c) = Vec3.sub (Vec3.inf a b) c := by
  simp [Vec3.inf, Vec3.sub, min_sub_sub_right]

theorem Vec3.sup_sub (a b c : Vec3) :
    Vec3.sup (Vec3.sub a c) (Vec3.sub b c) = Vec3.sub (Vec3.sup a b) c := by
  simp [Vec3.sup, Vec3.sub, max_sub_sub_right]

theorem Vec3.add_sub_swap (p c m : Vec3) :
    Vec3.add (Vec3.sub p c) m = Vec3.sub (Vec3.add p m) c := by
  simp only [Vec3.add, Vec3.sub, Vec3.mk.injEq]
  refine ⟨by ring, by ring, by ring⟩

theorem boxExpand_shift (b : Box3) (v c : Vec3) :
    boxExpand ⟨Vec3.sub b.lo c, Vec3.sub b.hi c⟩ (Vec3.sub v c) =
      ⟨Vec3.sub (boxExpand b v).lo c, Vec3.sub (boxExpand b v).hi c⟩ := by
  simp only [boxExpand, Vec3.inf_sub, Vec3.sup_sub]

theorem foldBox_shift (c : Vec3) (vs : List Vec3) (b : Box3) :
    (vs.map (fun v => Vec3.sub v c)).foldl boxExpand ⟨Vec3.sub b.lo c, Vec3.sub b.hi c⟩ =
      ⟨Vec3.sub ((vs.foldl boxExpand b).lo) c, Vec3.sub ((vs.foldl boxExpand b).hi) c⟩ := by
  induction vs generalizing b with
  | nil => rfl
  | cons v vs ih =>
    simp only [List.map_cons, List.foldl_cons]
    rw [boxExpand_shift]
    exact ih (boxExpand b v)

theorem box3OfPoints_shift (c : Vec3) (pts : List Vec3) :
    box3OfPoints (pts.map (fun v => Vec3.sub v c)) =
      (box3OfPoints pts).map (fun b => ⟨Vec3.sub b.lo c, Vec3.sub b.hi c⟩) := by
  cases pts with
  | nil => rfl
  | cons v vs =>
    simp only [List.map_cons, box3OfPoints, Option.map_some']
    rw [show (⟨Vec3.sub v c, Vec3.sub v c⟩ : Box3) =
        ⟨Vec3.sub (Box3.lo ⟨v, v⟩) c, Vec3.sub (Box3.hi ⟨v, v⟩) c⟩ from rfl]
    rw [foldBox_shift c vs ⟨v, v⟩]

theorem worldPoints_setShadows (o : Object3D) :
    (setShadows o).worldPoints = o.worldPoints := by
  simp only [setShadows, Object3D.worldPoints, List.flatMap_map]

theorem worldPoints_centerObject (o : Object3D) :
    (centerObject o).worldPoints =
      o.worldPoints.map (fun v => Vec3.sub v (getCenter (setFromObject o))) := by
  simp only [centerObject, Object3D.worldPoints, List.map_map]
  exact List.map_congr_left fun v _ => (Vec3.add_sub_swap _ _ _)

theorem getCenter_some (lo hi : Vec3) :
    getCenter (some ⟨lo, hi⟩) = Vec3.smul (1 / 2) (Vec3.add lo hi) := rfl

theorem center_shift_cancel (lo hi : Vec3) :
    Vec3.smul (1 / 2)
      (Vec3.add (Vec3.sub lo (Vec3.smul (1 / 2) (Vec3.add lo hi)))
        (Vec3.sub hi (Vec3.smul (1 / 2) (Vec3.add lo hi)))) = Vec3.zero := by
  simp only [Vec3.smul, Vec3.add, Vec3.sub, Vec3.zero, Vec3.mk.injEq]
  refine ⟨by ring, by ring, by ring⟩

theorem getCenter_centerObject (o : Object3D) (h : o.worldPoints ≠ []) :
    getCenter (setFromObject (centerObject o)) = Vec3.zero := by
  obtain ⟨b, hb⟩ : ∃ b, box3OfPoints o.worldPoints = some b := by
    cases hp : o.worldPoints with
    | nil => exact absurd hp h
    | cons v vs => exact ⟨_, rfl⟩
  have h1 : setFromObject (centerObject o) =
      some ⟨Vec3.sub b.lo (getCenter (setFromObject o)),
            Vec3.sub b.hi (getCenter (setFromObject o))⟩ := by
    rw [setFromObject, worldPoints_centerObject, box3OfPoints_shift, hb, Option.map_some']
  have h2 : getCenter (setFromObject o) = Vec3.smul (1 / 2) (Vec3.add b.lo b.hi) := by
    rw [setFromObject, hb]
    cases b
    rfl
  rw [h1, h2, getCenter_some]
  exact center_shift_cancel b.lo b.hi

theorem worldPoints_ne_nil (o : Object3D) (h : o.meshes.flatMap Mesh.vertices ≠ []) :
    o.worldPoints ≠ [] := by
  simp only [Object3D.worldPoints, ne_eq, List.map_eq_nil_iff]
  exact h

theorem getCenter_objSuccessObject (o : Object3D)
    (h : o.meshes.flatMap Mesh.vertices ≠ []) :
    getCenter (setFromObject (objSuccessObject o)) = Vec3.zero := by
  rw [objSuccessObject, setFromObject, worldPoints_setShadows, ← setFromObject]
  refine getCenter_centerObject _ (worldPoints_ne_nil _ ?_)
  simpa [applyScale] using h

/-! ### The claims -/

/-- Claim C1: when the MTL load has succeeded and the OBJ load then
succeeds, the success callback sets the loaded object's uniform scale to
`0.001` on all three axes, translates the object so the center of its
axis-aligned bounding box sits at the origin, marks every mesh in the
object as shadow caster and receiver, adds the object to the scene, and
sets the loading flag to false. -/
theorem obj_success_callback_spec (s : SessionState) (o : Object3D)
    (h : o.meshes.flatMap Mesh.vertices ≠ []) :
    (step s (Ev.objSuccess o)).loading = false ∧
    (step s (Ev.objSuccess o)).scene.model = some (objSuccessObject o) ∧
    (objSuccessObject o).scale = ⟨1 / 1000, 1 / 1000, 1 / 1000⟩ ∧
    ((objSuccessObject o).meshes.all fun m => m.castShadow && m.receiveShadow) = true ∧
    getCenter (setFromObject (objSuccessObject o)) = Vec3.zero := by
  refine ⟨rfl, rfl, rfl, ?_, getCenter_objSuccessObject o h⟩
  simp [objSuccessObject, setShadows, centerObject, applyScale, List.all_eq_true]

theorem obj_success_callback_spec_witness :
    (step (initState 2 1) (Ev.objSuccess
        ⟨⟨0, 0, 0⟩, ⟨1, 1, 1⟩, [⟨[⟨1, 2, 3⟩], false, false⟩]⟩)).loading = false ∧
    (step (initState 2 1) (Ev.objSuccess
        ⟨⟨0, 0, 0⟩, ⟨1, 1, 1⟩, [⟨[⟨1, 2, 3⟩], false, false⟩]⟩)).scene.model =
      some (objSuccessObject ⟨⟨0, 0, 0⟩, ⟨1, 1, 1⟩, [⟨[⟨1, 2, 3⟩], false, false⟩]⟩) ∧
    (objSuccessObject ⟨⟨0, 0, 0⟩, ⟨1, 1, 1⟩, [⟨[⟨1, 2, 3⟩], false, false⟩]⟩).scale =
      ⟨1 / 1000, 1 / 1000, 1 / 1000⟩ ∧
    ((objSuccessObject ⟨⟨0, 0, 0⟩, ⟨1, 1, 1⟩, [⟨[⟨1, 2, 3⟩], false, false⟩]⟩).meshes.all
      fun m => m.castShadow && m.receiveShadow) = true ∧
    getCenter (setFromObject
      (objSuccessObject ⟨⟨0, 0, 0⟩, ⟨1, 1, 1⟩, [⟨[⟨1, 2, 3⟩], false, false⟩]⟩)) = Vec3.zero :=
  obj_success_callback_spec (initState 2 1)
    ⟨⟨0, 0, 0⟩, ⟨1, 1, 1⟩, [⟨[⟨1, 2, 3⟩], false, false⟩]⟩ (by decide)

/-- Claim C2: the OBJ load starts only after the MTL load succeeded (a run
in which no MTL success callback fired has the OBJ load not started), and
after an MTL failure the OBJ load never begins, the error flag is the fixed
message `Failed to load MTL file`, and the loading flag is false. -/
theorem mtl_sequencing_and_failure_spec (w h : ℚ) (tr₁ tr₂ : List Ev) :
    (Ev.mtlSuccess ∉ tr₁ → (run (initState w h) tr₁).objLoadStarted = false) ∧
    (validFrom (initState w h) (tr₁ ++ Ev.mtlError :: tr₂) = true →
      (run (initState w h) (tr₁ ++ Ev.mtlError :: tr₂)).objLoadStarted = false ∧
      (run (initState w h) (tr₁ ++ Ev.mtlError :: tr₂)).error = some "Failed to load MTL file" ∧
      (run (initState w h) (tr₁ ++ Ev.mtlError :: tr₂)).loading = false) := by
  constructor
  · intro hmem
    cases hst : (run (initState w h) tr₁).objLoadStarted with
    | false => rfl
    | true => exact absurd (objLoadStarted_requires_mtlSuccess _ _ rfl hst) hmem
  · intro hv
    rw [validFrom_append, Bool.and_eq_true] at hv
    obtain ⟨hv₁, hv₂⟩ := hv
    rw [validFrom, Bool.and_eq_true] at hv₂
    obtain ⟨hall, hv₃⟩ := hv₂
    set s₁ := run (initState w h) tr₁ with hs₁
    have hmd : s₁.mtlDone = false := by simpa [evAllowed] using hall
    have hinv₁ : SInv s₁ := SInv_run _ _ hv₁ (SInv_initState w h)
    have hst : s₁.objLoadStarted = false := by
      cases hst : s₁.objLoadStarted with
      | false => rfl
      | true => exact absurd (hinv₁.1 hst) (by simp [hmd])
    have hinv₂ : SInv (step s₁ Ev.mtlError) := SInv_step _ _ hall hinv₁
    rw [run_append]
    rw [show run s₁ (Ev.mtlError :: tr₂) = run (step s₁ Ev.mtlError) tr₂ from rfl]
    refine ⟨?_, ?_, ?_⟩
    · exact run_objLoadStarted_false _ _ hv₃ rfl hst
    · exact run_error_stable _ _ _ hv₃ hinv₂ rfl
    · exact run_loading_mono _ _ rfl

theorem mtl_sequencing_and_failure_spec_witness :
    (run (initState 2 1) []).objLoadStarted = false ∧
    ((run (initState 2 1) ([] ++ Ev.mtlError :: [])).objLoadStarted = false ∧
     (run (initState 2 1) ([] ++ Ev.mtlError :: [])).error = some "Failed to load MTL file" ∧
     (run (initState 2 1) ([] ++ Ev.mtlError :: [])).loading = false) :=
  ⟨(mtl_sequencing_and_failure_spec 2 1 [] []).1 (by decide),
   (mtl_sequencing_and_failure_spec 2 1 [] []).2 (by decide)⟩

/-- Claim C3: after MTL success, an OBJ load failure sets the error flag to
the fixed message `Failed to load OBJ file` and the loading flag to false;
no model is ever added to the scene afterwards. -/
theorem obj_failure_spec (w h : ℚ) (tr₁ tr₂ : List Ev)
    (hv : validFrom (initState w h) (tr₁ ++ Ev.objError :: tr₂) = true) :
    (run (initState w h) (tr₁ ++ Ev.objError :: tr₂)).error = some "Failed to load OBJ file" ∧
    (run (initState w h) (tr₁ ++ Ev.objError :: tr₂)).loading = false ∧
    (run (initState w h) (tr₁ ++ Ev.objError :: tr₂)).scene.model = none := by
  rw [validFrom_append, Bool.and_eq_true] at hv
  obtain ⟨hv₁, hv₂⟩ := hv
  rw [validFrom, Bool.and_eq_true] at hv₂
  obtain ⟨hall, hv₃⟩ := hv₂
  set s₁ := run (initState w h) tr₁ with hs₁
  have hall' := hall
  simp only [evAllowed, Bool.and_eq_true, Bool.not_eq_true'] at hall'
  have hinv₁ : SInv s₁ := SInv_run _ _ hv₁ (SInv_initState w h)
  have hmd : s₁.mtlDone = true := hinv₁.1 hall'.1
  have hmodel : s₁.scene.model = none := hinv₁.2.1 hall'.2
  have hinv₂ : SInv (step s₁ Ev.objError) := SInv_step _ _ hall hinv₁
  rw [run_append]
  rw [show run s₁ (Ev.objError :: tr₂) = run (step s₁ Ev.objError) tr₂ from rfl]
  refine ⟨?_, ?_, ?_⟩
  · exact run_error_stable _ _ _ hv₃ hinv₂ rfl
  · exact run_loading_mono _ _ rfl
  · exact run_model_none_stable _ _ hv₃ hmd rfl hmodel

theorem obj_failure_spec_witness :
    (run (initState 2 1) ([Ev.mtlSuccess] ++ Ev.objError :: [])).error =
      some "Failed to load OBJ file" ∧
    (run (initState 2 1) ([Ev.mtlSuccess] ++ Ev.objError :: [])).loading = false ∧
    (run (initState 2 1) ([Ev.mtlSuccess] ++ Ev.objError :: [])).scene.model = none :=
  obj_failure_spec 2 1 [Ev.mtlSuccess] [] (by decide)

/-- Claim C4: on mount the loading flag starts true and the error flag
starts unset, before any load callback runs. -/
theorem mount_initial_flags_spec (w h : ℚ) :
    (initState w h).loading = true ∧ (initState w h).error = none :=
  ⟨rfl, rfl⟩

/-- Claim C5: the root view renders exactly one of the two subtrees, and
toggling twice returns to the original subtree; the remounted scene subtree
carries a fresh session state (and the panel carries none), so no state of
the previously unmounted subtree survives. -/
theorem root_toggle_spec (a : AppState) (w₁ h₁ w₂ h₂ : ℚ) :
    ((renderedSubtree a = Subtree.sceneTree ∧ renderedSubtree a ≠ Subtree.panelTree) ∨
     (renderedSubtree a = Subtree.panelTree ∧ renderedSubtree a ≠ Subtree.sceneTree)) ∧
    renderedSubtree (appToggle (appToggle a w₁ h₁) w₂ h₂) = renderedSubtree a ∧
    appToggle (appToggle a w₁ h₁) w₂ h₂ =
      (if a.showThree then appInit w₂ h₂ else { showThree := false, host := none }) := by
  cases hs : a.showThree <;> simp [renderedSubtree, appToggle, appInit, hs]

theorem root_toggle_spec_witness :
    renderedSubtree (appToggle (appToggle (appStep (appInit 2 1) Ev.mtlError) 2 1) 3 2) =
      renderedSubtree (appStep (appInit 2 1) Ev.mtlError) ∧
    appToggle (appToggle (appStep (appInit 2 1) Ev.mtlError) 2 1) 3 2 =
      (if (appStep (appInit 2 1) Ev.mtlError).showThree then appInit 3 2
       else { showThree := false, host := none }) :=
  (root_toggle_spec (appStep (appInit 2 1) Ev.mtlError) 2 1 3 2).2

/-- Claim C6: a resize event sets the camera aspect ratio to the new
width/height, recomputes the projection matrix from it, resizes the drawing
surface, and leaves the scene (including any loaded model), the status
flags, the controls, and the other camera parameters unchanged. -/
theorem resize_handler_spec (s : SessionState) (w h : ℚ) :
    (step s (Ev.resize w h)).camera.aspect = w / h ∧
    (step s (Ev.resize w h)).camera.projectionAspect = w / h ∧
    (step s (Ev.resize w h)).renderer.width = w ∧
    (step s (Ev.resize w h)).renderer.height = h ∧
    (step s (Ev.resize w h)).scene = s.scene ∧
    (step s (Ev.resize w h)).loading = s.loading ∧
    (step s (Ev.resize w h)).error = s.error ∧
    (step s (Ev.resize w h)).controls = s.controls ∧
    (step s (Ev.resize w h)).camera.position = s.camera.position ∧
    (step s (Ev.resize w h)).camera.fov = s.camera.fov :=
  ⟨rfl, rfl, rfl, rfl, rfl, rfl, rfl, rfl, rfl, rfl⟩

/-- Claim C7: teardown removes the resize handler, disposes the navigation
controls, detaches the renderer canvas, and disposes the renderer; a
remount starts from the initial state, whose loading flag is true and whose
error flag is unset. -/
theorem teardown_remount_spec (s : SessionState) (w h : ℚ) :
    (cleanup s).resizeHandlerRegistered = false ∧
    (cleanup s).controls.disposed = true ∧
    (cleanup s).renderer.domAttached = false ∧
    (cleanup s).renderer.disposed = true ∧
    (initState w h).loading = true ∧ (initState w h).error = none :=
  ⟨rfl, rfl, rfl, rfl, rfl, rfl⟩

/-- Claim C8: the perspective camera is constructed with field of view 45,
aspect ratio width/height, near plane 0.1, far plane 1000, position
(10, 10, 10), and looking at the origin. -/
theorem camera_setup_spec (w h : ℚ) :
    (initState w h).camera.fov = 45 ∧
    (initState w h).camera.aspect = w / h ∧
    (initState w h).camera.near = 1 / 10 ∧
    (initState w h).camera.far = 1000 ∧
    (initState w h).camera.position = ⟨10, 10, 10⟩ ∧
    (initState w h).camera.lookTarget = ⟨0, 0, 0⟩ ∧
    (initState w h).camera.projectionAspect = w / h :=
  ⟨rfl, rfl, rfl, rfl, rfl, rfl, rfl⟩

/-- Claim C9: the root view's initial display mode is the 3D scene: the
toggle state starts true and the scene subtree with a freshly mounted
session is rendered. -/
theorem root_initial_mode_spec (w h : ℚ) :
    (appInit w h).showThree = true ∧ (appInit w h).host = some (initState w h) ∧
    renderedSubtree (appInit w h) = Subtree.sceneTree :=
  ⟨rfl, rfl, rfl⟩

/-- Claim C10: within one mounted session, the loading flag only ever moves
from true to false, the error flag is never cleared or overwritten once
set, and any error value is one of the two fixed failure messages. -/
theorem session_flag_monotonicity_spec (w h : ℚ) (tr₁ tr₂ : List Ev)
    (hv : validFrom (initState w h) (tr₁ ++ tr₂) = true) :
    ((run (initState w h) tr₁).loading = false →
      (run (initState w h) (tr₁ ++ tr₂)).loading = false) ∧
    ((run (initState w h) tr₁).error ≠ none →
      (run (initState w h) (tr₁ ++ tr₂)).error = (run (initState w h) tr₁).error) ∧
    ((run (initState w h) (tr₁ ++ tr₂)).error = none ∨
     (run (initState w h) (tr₁ ++ tr₂)).error = some "Failed to load MTL file" ∨
     (run (initState w h) (tr₁ ++ tr₂)).error = some "Failed to load OBJ file") := by
  rw [validFrom_append, Bool.and_eq_true] at hv
  obtain ⟨hv₁, hv₂⟩ := hv
  rw [run_append]
  refine ⟨fun hl => run_loading_mono _ _ hl, fun he => ?_, ?_⟩
  · obtain ⟨m, hm⟩ := Option.ne_none_iff_exists'.mp he
    rw [hm]
    exact run_error_stable _ _ _ hv₂ (SInv_run _ _ hv₁ (SInv_initState w h)) hm
  · exact run_error_cases _ _ (run_error_cases _ _ (Or.inl rfl))

theorem session_flag_monotonicity_spec_witness :
    (run (initState 2 1) ([Ev.mtlError] ++ [Ev.resize 1 1])).loading = false ∧
    (run (initState 2 1) ([Ev.mtlError] ++ [Ev.resize 1 1])).error =
      (run (initState 2 1) [Ev.mtlError]).error ∧
    ((run (initState 2 1) ([Ev.mtlError] ++ [Ev.resize 1 1])).error = none ∨
     (run (initState 2 1) ([Ev.mtlError] ++ [Ev.resize 1 1])).error =
       some "Failed to load MTL file" ∨
     (run (initState 2 1) ([Ev.mtlError] ++ [Ev.resize 1 1])).error =
       some "Failed to load OBJ file") :=
  ⟨(session_flag_monotonicity_spec 2 1 [Ev.mtlError] [Ev.resize 1 1] (by decide)).1 (by decide),
   (session_flag_monotonicity_spec 2 1 [Ev.mtlError] [Ev.resize 1 1] (by decide)).2.1 (by decide),
   (session_flag_monotonicity_spec 2 1 [Ev.mtlError] [Ev.resize 1 1] (by decide)).2.2⟩

end Building3D
